import Mathlib

/-!
Verification of the availability-resolution core of `username_generator.py`
(`UsernameGenerator`): candidate generation, per-platform probing strategies,
response classification and aggregation, shallowly embedded in Lean.

Conventions of the embedding:
* Python's four `available` values `True` / `False` / `'unknown'` / `'error'`
  become the inductive `PyAvail`.
* Python result dictionaries become the record `CheckResult` with optional
  fields (a missing dictionary key is `none`).
* The HTTP transport is an injected list of canned outcomes: each `session.get`
  consumes the next entry, which is either a `Response` or a transport failure
  carrying its message (Python `requests.RequestException`).  Every issued GET
  is recorded as a `CallRec` (URL and whether redirects are followed), so that
  theorems can count network calls.
* The injected random source is a stream of naturals; `random.choice(l)`
  consumes one draw `n` and picks index `n % len(l)` (all lists drawn from in
  the source are nonempty literals).
* Python `str.lower()` (per-character lowercasing, ASCII inputs here) is
  `pyLower`.
-/

/-- The value stored under the `'available'` key of a result dictionary:
Python `True`, `False`, `'unknown'` or `'error'`. -/
inductive PyAvail where
  | yes
  | no
  | unknown
  | error
deriving DecidableEq, Repr

/-- A `status_code` entry: normally a numeric HTTP status, but the Twitter
multi-endpoint fallback stores the string `'multiple_attempts'`. -/
inductive SCode where
  | num (n : Nat)
  | str (s : String)
deriving DecidableEq, Repr

/-- A result dictionary of `check_availability` and the `_*_bypass` helpers.
Absent dictionary keys are `none`. -/
structure CheckResult where
  available : PyAvail
  statusCode : Option SCode := none
  note : Option String := none
  errMsg : Option String := none
  method : Option String := none
deriving DecidableEq, Repr

/-- A minimal JSON value model, enough for the membership and truthiness
tests the source performs on parsed response bodies. -/
inductive JVal where
  | str (s : String)
  | num (n : Nat)
  | obj (fields : List (String × JVal))
  | nul

/-- Python truthiness of a JSON value (`if data['author_name']:`). -/
def jtruthy : JVal → Bool
  | JVal.str s => !s.isEmpty
  | JVal.num n => n != 0
  | JVal.obj fields => !fields.isEmpty
  | JVal.nul => false

/-- Python `key in data` for a parsed JSON object. -/
def jmem (j : JVal) (key : String) : Bool :=
  match j with
  | JVal.obj fields => fields.any (fun kv => kv.1 == key)
  | _ => false

/-- Python `data[key]` for a parsed JSON object (defaulting to `nul`;
the source only indexes after a membership test). -/
def jget (j : JVal) (key : String) : JVal :=
  match j with
  | JVal.obj fields => ((fields.find? (fun kv => kv.1 == key)).map (fun kv => kv.2)).getD JVal.nul
  | _ => JVal.nul

/-- One canned HTTP response of the injected transport: status code, final
URL (`response.url`), body text (`response.text`) and, when the body parses
as JSON, the parsed value (`none` models a `response.json()` failure). -/
structure Response where
  status : Nat
  url : String := ""
  body : String := ""
  json : Option JVal := none

/-- The injected transport: each GET consumes the next entry; `Except.error m`
models a `requests.RequestException` with message `m`.  An exhausted list also
fails (the connection is gone). -/
abbrev Transport := List (Except String Response)

/-- Record of one issued GET: requested URL and the `allow_redirects` flag. -/
structure CallRec where
  url : String
  allowRedirects : Bool
deriving DecidableEq, Repr

/-- `session.get(url, allow_redirects=...)` against the canned transport:
returns the outcome, the remaining transport and the call record. -/
def http_get (url : String) (allowRedirects : Bool) (t : Transport) :
    Except String Response × Transport × CallRec :=
  (List.headD t (Except.error "connection aborted"), List.tail t, ⟨url, allowRedirects⟩)

/-- One entry of the `self.websites` registry (display name, URL template,
checkable flag, description). -/
structure SiteInfo where
  name : String
  url : String
  check_available : Bool
  description : String

/-- The `self.websites` registry built in `UsernameGenerator.__init__`,
in source order. -/
def websites : List (String × SiteInfo) :=
  [("github", ⟨"GitHub", "https://github.com/{username}", true,
      "Code repository hosting"⟩),
   ("twitter", ⟨"Twitter/X", "https://twitter.com/{username}", true,
      "Social media platform (advanced bypass)"⟩),
   ("instagram", ⟨"Instagram", "https://instagram.com/{username}", true,
      "Photo sharing platform (advanced bypass)"⟩),
   ("tiktok", ⟨"TikTok", "https://tiktok.com/@{username}", false,
      "Short video platform (blocked by anti-bot measures)"⟩),
   ("discord", ⟨"Discord", "https://discord.com/users/{username}", false,
      "Gaming communication platform"⟩),
   ("reddit", ⟨"Reddit", "https://reddit.com/u/{username}", false,
      "Discussion platform (blocked by anti-bot measures)"⟩),
   ("youtube", ⟨"YouTube", "https://youtube.com/@{username}", false,
      "Video sharing platform (blocked by anti-bot measures)"⟩),
   ("twitch", ⟨"Twitch", "https://twitch.tv/{username}", false,
      "Live streaming platform (blocked by anti-bot measures)"⟩),
   ("spotify", ⟨"Spotify", "https://open.spotify.com/user/{username}", false,
      "Music streaming service"⟩),
   ("steam", ⟨"Steam", "https://steamcommunity.com/id/{username}", true,
      "Gaming platform"⟩),
   ("linkedin", ⟨"LinkedIn", "https://linkedin.com/in/{username}", false,
      "Professional networking"⟩),
   ("snapchat", ⟨"Snapchat", "https://snapchat.com/add/{username}", false,
      "Photo messaging app"⟩)]

/-- Dictionary lookup `self.websites[website]` guarded by
`website in self.websites`. -/
def lookupSite (website : String) : Option SiteInfo :=
  (websites.find? (fun kv => kv.1 == website)).map (fun kv => kv.2)

/-- `site_info['url'].format(username=username)`. -/
def formatUrl (template username : String) : String :=
  template.replace "{username}" username

/-- `self.adjectives`. -/
def adjectives : List String :=
  ["cool", "epic", "zen", "max", "neo", "arc", "vex", "lux", "nex", "zen",
   "ace", "pro", "top", "big", "new", "old", "red", "blue", "dark", "lite",
   "fast", "slow", "high", "low", "hot", "ice", "fire", "wind", "star", "moon",
   "sun", "sky", "sea", "land", "rock", "tree", "bird", "fish", "wolf", "lion",
   "bear", "eagle", "hawk", "fox", "cat", "dog", "bee", "ant", "fly", "bug"]

/-- `self.nouns` (duplicates kept as in the source). -/
def nouns : List String :=
  ["dev", "pro", "ace", "max", "neo", "arc", "vex", "lux", "nex", "zen",
   "code", "hack", "tech", "data", "byte", "bit", "web", "app", "game", "art",
   "music", "photo", "video", "blog", "site", "page", "link", "file", "text", "word",
   "name", "user", "team", "crew", "band", "club", "zone", "base", "home", "work",
   "play", "fun", "joy", "win", "goal", "dream", "hope", "love", "life", "time",
   "space", "world", "earth", "city", "town", "road", "path", "way", "door", "key",
   "book", "page", "line", "point", "spot", "mark", "sign", "flag", "star", "moon"]

/-- `self.letter_subs`.  The Python dict literal writes the key `'g'` twice
(`'6'`, then `'9'`); dict semantics keep the last binding, so `'g'` maps
to `'9'`. -/
def letter_subs : List (Char × Char) :=
  [('o', '0'), ('i', '1'), ('l', '1'), ('e', '3'), ('a', '4'), ('s', '5'),
   ('t', '7'), ('b', '8'), ('g', '9')]

/-- `self.numbers`. -/
def numbers : List String :=
  ["1", "2", "3", "4", "5", "6", "7", "8", "9", "0"]

/-- `self.symbols`. -/
def symbols : List String := ["", "_", "-"]

/-- The `short_words` literal of the `'minimal'` branch. -/
def short_words : List String :=
  ["dev", "pro", "ace", "max", "neo", "zen", "arc", "nex", "vex", "lux",
   "code", "hack", "tech", "web", "app", "art", "fun", "joy", "win", "top"]

/-- Vowels of the default pronounceable branch. -/
def vowels : List Char := ['a', 'e', 'i', 'o', 'u']

/-- Consonants of the default pronounceable branch. -/
def consonants : List Char :=
  ['b', 'c', 'd', 'f', 'g', 'h', 'j', 'k', 'l', 'm', 'n', 'p', 'q', 'r',
   's', 't', 'v', 'w', 'x', 'y', 'z']

/-- The injected random source: a stream of draws. -/
abbrev RandStream := List Nat

/-- `random.choice(l)` for a nonempty list `l`: consume one draw `n` and
return the element at index `n % len(l)` (the default `d` is never reached
for the nonempty literals of the source). -/
def pick {α : Type} (l : List α) (d : α) (s : RandStream) : α × RandStream :=
  (l.getD (List.headD s 0 % l.length) d, List.tail s)

/-- Python `str.lower()`: per-character lowercasing (all inputs in this
program are ASCII). -/
def pyLower (w : String) : String :=
  String.mk (w.data.map Char.toLower)

/-- The character loop of the default pronounceable branch: positions
`i, i+1, ..., i+fuel-1`, consonant at even positions, vowel at odd ones. -/
def pronounceChars (i fuel : Nat) (s : RandStream) : List Char × RandStream :=
  match fuel with
  | 0 => ([], s)
  | Nat.succ fuel' =>
    let draw := if i % 2 == 0 then pick consonants 'b' s else pick vowels 'a' s
    let rest := pronounceChars (i + 1) fuel' draw.2
    (draw.1 :: rest.1, rest.2)

/-- The character loop of the `'letter_sub'` branch: each character present
in `letter_subs` is replaced by its digit look-alike when a fresh
`random.choice([True, False, False])` draw says so (the draw happens only
for characters present in the table, mirroring Python's short-circuit). -/
def subChars (cs : List Char) (s : RandStream) : List Char × RandStream :=
  match cs with
  | [] => ([], s)
  | c :: rest =>
    match letter_subs.find? (fun kv => kv.1 == c) with
    | some kv =>
      let draw := pick [true, false, false] true s
      let restOut := subChars rest draw.2
      ((if draw.1 then kv.2 else c) :: restOut.1, restOut.2)
    | none =>
      let restOut := subChars rest s
      (c :: restOut.1, restOut.2)

/-- `UsernameGenerator.generate_username(style, length)`, threading the
injected random stream.  An unrecognised style (including the default
`'random'`) reaches the final `else` branch. -/
def generate_username (style : String) (length : Nat) (s : RandStream) :
    String × RandStream :=
  if style == "adjective_noun" then
    let (clean, s1) := pick [true, false, false] true s
    if clean then
      let (adjective, s2) := pick adjectives "" s1
      let (noun, s3) := pick nouns "" s2
      let (symbol, s4) := pick symbols "" s3
      (pyLower (adjective ++ symbol ++ noun), s4)
    else
      let (adjective, s2) := pick adjectives "" s1
      let (noun, s3) := pick nouns "" s2
      let (symbol, s4) := pick symbols "" s3
      let (number, s5) := pick numbers "" s4
      (pyLower (adjective ++ symbol ++ noun ++ number), s5)
  else if style == "noun_number" then
    let (noun, s1) := pick nouns "" s
    if noun.length < 4 then
      let (number, s2) := pick numbers "" s1
      (pyLower (noun ++ number), s2)
    else
      (pyLower noun, s1)
  else if style == "minimal" then
    let (word, s1) := pick short_words "" s
    if word.length ≤ 3 then
      let (b, s2) := pick [true, false] true s1
      if b then
        let (number, s3) := pick numbers "" s2
        (word ++ number, s3)
      else
        (word, s2)
    else
      (word, s1)
  else if style == "word_mash" then
    let (word1, s1) := pick (nouns.take 20) "" s
    let (word2, s2) := pick ((nouns.drop 20).take 20) "" s1
    let (together, s3) := pick [true, false] true s2
    if together then
      (pyLower (word1 ++ word2), s3)
    else
      let (symbol, s4) := pick symbols "" s3
      (pyLower (word1 ++ symbol ++ word2), s4)
  else if style == "letter_sub" then
    let (word, s1) := pick nouns "" s
    let (out, s2) := subChars word.data s1
    (pyLower (String.mk out), s2)
  else
    let (cs, s1) := pronounceChars 0 length s
    (String.mk cs, s1)

/-- Contiguous-sublist test: does `pat` occur inside the second list? -/
def subLi (pat : List Char) : List Char → Bool
  | [] => pat.isEmpty
  | c :: rest => pat.isPrefixOf (c :: rest) || subLi pat rest

/-- Substring test `pat in s` on a raw Python string (used on `response.url`). -/
def containsStr (s pat : String) : Bool :=
  subLi pat.data s.data

/-- Substring test `pat in content` where `content = response.text.lower()`. -/
def containsLower (body pat : String) : Bool :=
  containsStr (pyLower body) pat

/-- `UsernameGenerator._instagram_bypass`: one GET to Instagram's internal
profile-info endpoint; on 200, a parsed body with a `data.user` object means
taken, its absence available, a JSON parse failure unknown; 404 means
available; any other status unknown; an exception becomes an error result
carrying the message.  The decorative headers and pacing delays affect no
classification and are not modelled. -/
def instagram_bypass (username : String) (t : Transport) :
    CheckResult × List CallRec :=
  let api_url := "https://www.instagram.com/api/v1/users/web_profile_info/?username=" ++ username
  let (r, _, c) := http_get api_url true t
  match r with
  | Except.error e =>
    ({ available := PyAvail.error, errMsg := some e, method := some "api" }, [c])
  | Except.ok resp =>
    if resp.status == 200 then
      match resp.json with
      | none =>
        ({ available := PyAvail.unknown, statusCode := some (SCode.num 200),
           method := some "api" }, [c])
      | some data =>
        if jmem data "data" && jmem (jget data "data") "user" then
          ({ available := PyAvail.no, statusCode := some (SCode.num 200),
             method := some "api" }, [c])
        else
          ({ available := PyAvail.yes, statusCode := some (SCode.num 200),
             method := some "api" }, [c])
    else if resp.status == 404 then
      ({ available := PyAvail.yes, statusCode := some (SCode.num 404),
         method := some "api" }, [c])
    else
      ({ available := PyAvail.unknown, statusCode := some (SCode.num resp.status),
         method := some "api" }, [c])

/-- The profile-indicator keyword list of the Twitter search probe. -/
def twitterIndicators : List String :=
  ["followers", "following", "tweets", "profile", "bio", "verified", "joined"]

/-- `UsernameGenerator._twitter_bypass`: the multi-endpoint fallback.
Sub-probes in order: public search (redirects not followed), oEmbed
endpoint, RSS feed.  Each sub-probe returns on status 200 or 404 (a 200 at
the embed endpoint returns even when the JSON body fails to parse, with an
unknown verdict tagged `"embed"`); any other status falls through to the
next sub-probe; when all three fall through the verdict is unknown with
`status_code = 'multiple_attempts'` and method `"multi"`.  Any transport
exception anywhere in the chain is caught and becomes an error result
carrying the message, method `"multi"`. -/
def twitter_bypass (username : String) (t : Transport) :
    CheckResult × List CallRec :=
  let search_url := "https://twitter.com/search?q=from%3A" ++ username ++ "&src=typed_query&f=user"
  let (r1, t1, c1) := http_get search_url false t
  match r1 with
  | Except.error e =>
    ({ available := PyAvail.error, errMsg := some e, method := some "multi" }, [c1])
  | Except.ok resp1 =>
    if resp1.status == 200 then
      if twitterIndicators.any (fun ind => containsLower resp1.body ind) then
        ({ available := PyAvail.no, statusCode := some (SCode.num 200),
           method := some "search" }, [c1])
      else
        ({ available := PyAvail.yes, statusCode := some (SCode.num 200),
           method := some "search" }, [c1])
    else if resp1.status == 404 then
      ({ available := PyAvail.yes, statusCode := some (SCode.num 404),
         method := some "search" }, [c1])
    else
      let embed_url := "https://publish.twitter.com/oembed?url=https://twitter.com/" ++ username
      let (r2, t2, c2) := http_get embed_url true t1
      match r2 with
      | Except.error e =>
        ({ available := PyAvail.error, errMsg := some e, method := some "multi" },
         [c1, c2])
      | Except.ok resp2 =>
        if resp2.status == 200 then
          match resp2.json with
          | none =>
            ({ available := PyAvail.unknown, statusCode := some (SCode.num 200),
               method := some "embed" }, [c1, c2])
          | some data =>
            if jmem data "author_name" && jtruthy (jget data "author_name") then
              ({ available := PyAvail.no, statusCode := some (SCode.num 200),
                 method := some "embed" }, [c1, c2])
            else
              ({ available := PyAvail.yes, statusCode := some (SCode.num 200),
                 method := some "embed" }, [c1, c2])
        else if resp2.status == 404 then
          ({ available := PyAvail.yes, statusCode := some (SCode.num 404),
             method := some "embed" }, [c1, c2])
        else
          let rss_url := "https://twitter.com/" ++ username ++ "/rss"
          let (r3, _, c3) := http_get rss_url true t2
          match r3 with
          | Except.error e =>
            ({ available := PyAvail.error, errMsg := some e, method := some "multi" },
             [c1, c2, c3])
          | Except.ok resp3 =>
            if resp3.status == 200 then
              if containsLower resp3.body "rss" && containsLower resp3.body "channel" then
                ({ available := PyAvail.no, statusCode := some (SCode.num 200),
                   method := some "rss" }, [c1, c2, c3])
              else
                ({ available := PyAvail.yes, statusCode := some (SCode.num 200),
                   method := some "rss" }, [c1, c2, c3])
            else if resp3.status == 404 then
              ({ available := PyAvail.yes, statusCode := some (SCode.num 404),
                 method := some "rss" }, [c1, c2, c3])
            else
              ({ available := PyAvail.unknown,
                 statusCode := some (SCode.str "multiple_attempts"),
                 method := some "multi" }, [c1, c2, c3])

/-- `UsernameGenerator._tiktok_bypass` (unreachable through
`check_availability`, whose manual-platform guard returns first): a
homepage GET whose failure is ignored, then the detail-API GET; 200 with a
truthy `userInfo` object means taken, 404 available, other statuses
unknown; an exception becomes an unknown result with `status_code = 0`,
method `"error"`. -/
def tiktok_bypass (username : String) (t : Transport) :
    CheckResult × List CallRec :=
  let (_, t1, c0) := http_get "https://www.tiktok.com/" true t
  let api_url := "https://www.tiktok.com/api/user/detail/?uniqueId=" ++ username
  let (r, _, c) := http_get api_url true t1
  match r with
  | Except.error _ =>
    ({ available := PyAvail.unknown, statusCode := some (SCode.num 0),
       method := some "error" }, [c0, c])
  | Except.ok resp =>
    if resp.status == 200 then
      match resp.json with
      | none =>
        ({ available := PyAvail.unknown, statusCode := some (SCode.num 200),
           method := some "api" }, [c0, c])
      | some data =>
        if jmem data "userInfo" && jtruthy (jget data "userInfo") then
          ({ available := PyAvail.no, statusCode := some (SCode.num 200),
             method := some "api" }, [c0, c])
        else
          ({ available := PyAvail.yes, statusCode := some (SCode.num 200),
             method := some "api" }, [c0, c])
    else if resp.status == 404 then
      ({ available := PyAvail.yes, statusCode := some (SCode.num 404),
         method := some "api" }, [c0, c])
    else
      ({ available := PyAvail.unknown, statusCode := some (SCode.num resp.status),
         method := some "api" }, [c0, c])

/-- `UsernameGenerator._youtube_bypass` (unreachable through
`check_availability`): the decorative proxy-chain and dummy-endpoint
traffic and the header assembly of the source (every failure there is
ignored and no response of it influences the classification) are elided;
only the terminal channel-page GET and its classification are embedded:
200 with channel markers in the body means taken, 200 without them
available, 404 available, other statuses unknown; an exception becomes an
unknown result with `status_code = 0`, method `"error"`. -/
def youtube_bypass (username : String) (t : Transport) :
    CheckResult × List CallRec :=
  let api_url := "https://www.youtube.com/c/" ++ username
  let (r, _, c) := http_get api_url true t
  match r with
  | Except.error _ =>
    ({ available := PyAvail.unknown, statusCode := some (SCode.num 0),
       method := some "error" }, [c])
  | Except.ok resp =>
    if resp.status == 200 then
      if containsLower resp.body "channel" &&
         (containsLower resp.body "subscribers" || containsLower resp.body "videos") then
        ({ available := PyAvail.no, statusCode := some (SCode.num 200),
           method := some "channel" }, [c])
      else
        ({ available := PyAvail.yes, statusCode := some (SCode.num 200),
           method := some "channel" }, [c])
    else if resp.status == 404 then
      ({ available := PyAvail.yes, statusCode := some (SCode.num 404),
         method := some "channel" }, [c])
    else
      ({ available := PyAvail.unknown, statusCode := some (SCode.num resp.status),
         method := some "channel" }, [c])

/-- `UsernameGenerator._snapchat_bypass` (unreachable through
`check_availability`): a homepage GET whose failure is ignored, then the
web-profile GET; 200 with profile markers means taken, 200 without them
available, 404 available, other statuses unknown; an exception becomes an
unknown result with `status_code = 0`, method `"error"`. -/
def snapchat_bypass (username : String) (t : Transport) :
    CheckResult × List CallRec :=
  let (_, t1, c0) := http_get "https://www.snapchat.com/" true t
  let profile_url := "https://www.snapchat.com/add/" ++ username
  let (r, _, c) := http_get profile_url true t1
  match r with
  | Except.error _ =>
    ({ available := PyAvail.unknown, statusCode := some (SCode.num 0),
       method := some "error" }, [c0, c])
  | Except.ok resp =>
    if resp.status == 200 then
      if containsLower resp.body "add friend" || containsLower resp.body "snapcode" ||
         containsLower resp.body "bitmoji" then
        ({ available := PyAvail.no, statusCode := some (SCode.num 200),
           method := some "profile" }, [c0, c])
      else
        ({ available := PyAvail.yes, statusCode := some (SCode.num 200),
           method := some "profile" }, [c0, c])
    else if resp.status == 404 then
      ({ available := PyAvail.yes, statusCode := some (SCode.num 404),
         method := some "profile" }, [c0, c])
    else
      ({ available := PyAvail.unknown, statusCode := some (SCode.num resp.status),
         method := some "profile" }, [c0, c])

/-- `UsernameGenerator.check_availability(username, website)`.  An unknown
website key returns `{'available': False, 'error': 'Website not supported'}`
without touching the network; a platform whose registry entry has
`check_available = False` returns the unknown/manual result without
touching the network; Instagram and Twitter dispatch to their bypass
helpers (the TikTok/YouTube/Snapchat dispatch lines are dead, each of those
keys being stopped by the manual guard first); every remaining checkable
platform performs one GET to the formatted profile URL with redirects not
followed.  The platform-specific 200-content branches for
Instagram/Twitter/TikTok after that GET are likewise dead but embedded as
written; the reachable generic mapping is 404 available, 200 taken,
anything else unknown; a `requests.RequestException` becomes an error
result carrying the message. -/
def check_availability (username website : String) (t : Transport) :
    CheckResult × List CallRec :=
  match lookupSite website with
  | none => ({ available := PyAvail.no, errMsg := some "Website not supported" }, [])
  | some site_info =>
    if !site_info.check_available then
      ({ available := PyAvail.unknown,
         note := some "Availability checking not supported" }, [])
    else if website == "instagram" then instagram_bypass username t
    else if website == "twitter" then twitter_bypass username t
    else if website == "tiktok" then tiktok_bypass username t
    else if website == "youtube" then youtube_bypass username t
    else if website == "snapchat" then snapchat_bypass username t
    else
      let url := formatUrl site_info.url username
      let (r, _, c) := http_get url false t
      match r with
      | Except.error e =>
        ({ available := PyAvail.error, errMsg := some e }, [c])
      | Except.ok resp =>
        if website == "instagram" then
          if resp.status == 404 then
            ({ available := PyAvail.yes, statusCode := some (SCode.num 404) }, [c])
          else if resp.status == 200 then
            if ["followers", "following", "posts", "profile", "bio"].any
                (fun ind => containsLower resp.body ind) then
              ({ available := PyAvail.no, statusCode := some (SCode.num 200) }, [c])
            else if containsLower resp.body "login" || containsLower resp.body "sign up" then
              ({ available := PyAvail.yes, statusCode := some (SCode.num 200) }, [c])
            else
              ({ available := PyAvail.unknown, statusCode := some (SCode.num 200) }, [c])
          else
            ({ available := PyAvail.unknown,
               statusCode := some (SCode.num resp.status) }, [c])
        else if website == "twitter" then
          if resp.status == 404 then
            ({ available := PyAvail.yes, statusCode := some (SCode.num 404) }, [c])
          else if resp.status == 200 then
            if containsStr resp.url "twitter.com" && containsStr resp.url username then
              ({ available := PyAvail.no, statusCode := some (SCode.num 200) }, [c])
            else
              ({ available := PyAvail.yes, statusCode := some (SCode.num 200) }, [c])
          else
            ({ available := PyAvail.unknown,
               statusCode := some (SCode.num resp.status) }, [c])
        else if website == "tiktok" then
          if resp.status == 404 then
            ({ available := PyAvail.yes, statusCode := some (SCode.num 404) }, [c])
          else if resp.status == 200 then
            if containsStr resp.url "tiktok.com" && containsStr resp.url username then
              ({ available := PyAvail.no, statusCode := some (SCode.num 200) }, [c])
            else
              ({ available := PyAvail.yes, statusCode := some (SCode.num 200) }, [c])
          else
            ({ available := PyAvail.unknown,
               statusCode := some (SCode.num resp.status) }, [c])
        else
          if resp.status == 404 then
            ({ available := PyAvail.yes, statusCode := some (SCode.num 404) }, [c])
          else if resp.status == 200 then
            ({ available := PyAvail.no, statusCode := some (SCode.num 200) }, [c])
          else
            ({ available := PyAvail.unknown,
               statusCode := some (SCode.num resp.status) }, [c])

/-- The registry loop of `check_username_across_platforms`: one
`check_availability` per registry entry, in registry order. -/
def resolveLoop (username : String) (tm : String → Transport) :
    List (String × SiteInfo) → List (String × CheckResult)
  | [] => []
  | (site_key, _) :: rest =>
    (site_key, (check_availability username site_key (tm site_key)).1) ::
      resolveLoop username tm rest

/-- `UsernameGenerator.check_username_across_platforms(username)`: one
`check_availability` per registry entry, in registry order; `tm` gives each
platform its own canned transport. -/
def check_username_across_platforms (username : String)
    (tm : String → Transport) : List (String × CheckResult) :=
  resolveLoop username tm websites

/-- Lookup of one platform's entry in an aggregated result list. -/
def lookupRes (rs : List (String × CheckResult)) (p : String) : Option CheckResult :=
  (rs.find? (fun kv => kv.1 == p)).map (fun kv => kv.2)

/-- The `key_platforms` literal of `find_available_username`: only GitHub is
consulted by the search loop. -/
def key_platforms : List String := ["github"]

/-- The inner platform loop of `find_available_username`: counts `True`
verdicts, stops at the first `False` (the candidate is abandoned), skips
anything else. -/
def countAvail (username : String) (ps : List String)
    (netA : String → Transport) : Nat :=
  match ps with
  | [] => 0
  | p :: rest =>
    match (check_availability username p (netA p)).1.available with
    | PyAvail.yes => 1 + countAvail username rest netA
    | PyAvail.no => 0
    | _ => countAvail username rest netA

/-- The attempt loop of `find_available_username`: `attempt` is the current
iteration index, `fuel` the remaining attempts; returns the found candidate
(if any) and the number of generate-and-check iterations performed.
`net attempt p` is the canned transport available to iteration `attempt`
for platform `p`. -/
def findLoop (style : String) (net : Nat → String → Transport)
    (attempt fuel : Nat) (s : RandStream) : Option String × Nat :=
  match fuel with
  | 0 => (none, 0)
  | Nat.succ fuel' =>
    let gen := generate_username style 8 s
    if countAvail gen.1 key_platforms (net attempt) == key_platforms.length then
      (some gen.1, 1)
    else
      let rest := findLoop style net (attempt + 1) fuel' gen.2
      (rest.1, rest.2 + 1)

/-- `UsernameGenerator.find_available_username(style, max_attempts)`,
returning the found candidate (or `none`) together with the number of
iterations performed. -/
def find_available_username (style : String) (max_attempts : Nat)
    (s : RandStream) (net : Nat → String → Transport) : Option String × Nat :=
  findLoop style net 0 max_attempts s

/-- The GenericStatus classification of the spec, restated for the
refinement claim about the generic branch: 404 is available, 200 taken,
anything else unknown. -/
def genericStatusVerdict (status : Nat) : PyAvail :=
  if status = 404 then PyAvail.yes
  else if status = 200 then PyAvail.no
  else PyAvail.unknown

/-- The candidate alphabet of the spec: `[a-z0-9_-]`. -/
def allowedChar (c : Char) : Bool :=
  ('a' ≤ c && c ≤ 'z') || ('0' ≤ c && c ≤ '9') || c == '_' || c == '-'

/-- A character unchanged by Python `str.lower()`. -/
def charFixed (c : Char) : Bool :=
  Char.toLower c == c

/-- A character that is both in the candidate alphabet and lower-case fixed. -/
def goodChar (c : Char) : Bool :=
  allowedChar c && charFixed c

/-- Every character of the string is in the candidate alphabet. -/
def strOK (w : String) : Bool :=
  w.data.all allowedChar

/-- Every character of the string is good. -/
def strGood (w : String) : Bool :=
  w.data.all goodChar

theorem adjectives_good : adjectives.all strGood = true := by decide

theorem nouns_good : nouns.all strGood = true := by decide

theorem short_words_good : short_words.all strGood = true := by decide

theorem symbols_good : symbols.all strGood = true := by decide

theorem numbers_good : numbers.all strGood = true := by decide

theorem consonants_good : consonants.all goodChar = true := by decide

theorem vowels_good : vowels.all goodChar = true := by decide

theorem letter_subs_good : letter_subs.all (fun kv => goodChar kv.2) = true := by decide

theorem all_of_mem {α : Type} {l : List α} {p : α → Bool} (h : l.all p = true)
    {a : α} (ha : a ∈ l) : p a = true :=
  List.all_eq_true.mp h a ha

theorem all_imp {α : Type} {l : List α} {p q : α → Bool}
    (hpq : ∀ a, p a = true → q a = true) (h : l.all p = true) : l.all q = true := by
  simp only [List.all_eq_true] at h ⊢
  exact fun a ha => hpq a (h a ha)

theorem goodChar_allowed {c : Char} (h : goodChar c = true) : allowedChar c = true := by
  simpa [goodChar, Bool.and_eq_true] using And.left (by simpa [goodChar, Bool.and_eq_true] using h)

theorem goodChar_fixed {c : Char} (h : goodChar c = true) : charFixed c = true :=
  And.right (by simpa [goodChar, Bool.and_eq_true] using h)

theorem strGood_strOK {w : String} (h : strGood w = true) : strOK w = true :=
  all_imp (fun _ => goodChar_allowed) h

theorem pick_mem {α : Type} (l : List α) (d : α) (s : RandStream) (h : l ≠ []) :
    (pick l d s).1 ∈ l := by
  have hlen : 0 < l.length := List.length_pos.mpr h
  have hidx : (List.headD s 0) % l.length < l.length := Nat.mod_lt _ hlen
  simp only [pick]
  rw [List.getD_eq_getElem l d hidx]
  exact List.getElem_mem hidx

theorem data_append (a b : String) : (a ++ b).data = a.data ++ b.data := by
  cases a
  cases b
  rfl

theorem strOK_append {a b : String} (ha : strOK a = true) (hb : strOK b = true) :
    strOK (a ++ b) = true := by
  simp only [strOK, data_append, List.all_append]
  simp only [strOK] at ha hb
  simp [ha, hb]

theorem map_id_of_mem {α : Type} (f : α → α) :
    ∀ (l : List α), (∀ c ∈ l, f c = c) → l.map f = l := by
  intro l
  induction l with
  | nil => intro _; rfl
  | cons c rest ih =>
    intro h
    simp only [List.map_cons]
    rw [h c (List.mem_cons_self c rest), ih (fun x hx => h x (List.mem_cons_of_mem c hx))]

theorem pyLower_id {w : String} (h : w.data.all charFixed = true) : pyLower w = w := by
  cases w with
  | mk l =>
    simp only [pyLower]
    have : l.map Char.toLower = l := by
      refine map_id_of_mem _ l (fun c hc => ?_)
      have := all_of_mem h hc
      simpa [charFixed] using this

    exact congrArg String.mk this

theorem strGood_pyLower {w : String} (h : strGood w = true) : pyLower w = w :=
  pyLower_id (all_imp (fun _ => goodChar_fixed) h)

theorem strGood_append {a b : String} (ha : strGood a = true) (hb : strGood b = true) :
    strGood (a ++ b) = true := by
  simp only [strGood, data_append, List.all_append]
  simp only [strGood] at ha hb
  simp [ha, hb]

theorem adjectives_ne : adjectives ≠ [] := by decide

theorem nouns_ne : nouns ≠ [] := by decide

theorem symbols_ne : symbols ≠ [] := by decide

theorem numbers_ne : numbers ≠ [] := by decide

theorem short_words_ne : short_words ≠ [] := by decide

theorem consonants_ne : consonants ≠ [] := by decide

theorem vowels_ne : vowels ≠ [] := by decide

theorem nouns_take_good : (nouns.take 20).all strGood = true := by decide

theorem nouns_midd_good : ((nouns.drop 20).take 20).all strGood = true := by decide

theorem nouns_take_ne : nouns.take 20 ≠ [] := by decide

theorem nouns_midd_ne : (nouns.drop 20).take 20 ≠ [] := by decide

theorem pick_strGood {l : List String} (hall : l.all strGood = true) (hne : l ≠ [])
    (s : RandStream) : strGood (pick l "" s).1 = true :=
  all_of_mem hall (pick_mem l "" s hne)

theorem pronounceChars_length : ∀ (fuel i : Nat) (s : RandStream),
    ((pronounceChars i fuel s).1).length = fuel := by
  intro fuel
  induction fuel with
  | zero => intro i s; rfl
  | succ n ih =>
    intro i s
    simp only [pronounceChars, List.length_cons]
    rw [ih]

theorem pronounceChars_all_good : ∀ (fuel i : Nat) (s : RandStream),
    ((pronounceChars i fuel s).1).all goodChar = true := by
  intro fuel
  induction fuel with
  | zero => intro i s; rfl
  | succ n ih =>
    intro i s
    simp only [pronounceChars, List.all_cons, Bool.and_eq_true]
    constructor
    · by_cases hpar : i % 2 == 0
      · simp only [hpar, if_pos]
        exact all_of_mem consonants_good (pick_mem consonants 'b' s consonants_ne)
      · simp only [hpar, Bool.false_eq_true, if_neg, if_false]
        exact all_of_mem vowels_good (pick_mem vowels 'a' s vowels_ne)
    · exact ih _ _

theorem pronounceChars_getD : ∀ (fuel i : Nat) (s : RandStream) (j : Nat), j < fuel →
    ((pronounceChars i fuel s).1).getD j 'b' ∈
      (if (i + j) % 2 = 0 then consonants else vowels) := by
  intro fuel
  induction fuel with
  | zero =>
    intro i s j h
    omega
  | succ n ih =>
    intro i s j h
    match j with
    | 0 =>
      simp only [pronounceChars, List.getD_cons_zero, Nat.add_zero]
      by_cases hpar : i % 2 = 0
      · have hb : (i % 2 == 0) = true := by simp [hpar]
        simp only [hb, if_pos, hpar, if_true]
        exact pick_mem consonants 'b' s consonants_ne
      · have hb : (i % 2 == 0) = false := by simp [hpar]
        simp only [hb, Bool.false_eq_true, if_false, hpar]
        exact pick_mem vowels 'a' s vowels_ne
    | Nat.succ j' =>
      have h' : j' < n := Nat.lt_of_succ_lt_succ h
      have hmem := ih (i + 1)
        ((if i % 2 == 0 then pick consonants 'b' s else pick vowels 'a' s).2) j' h'
      have harith : i + 1 + j' = i + (j' + 1) := by omega
      rw [harith] at hmem
      simpa only [pronounceChars, List.getD_cons_succ] using hmem

theorem subChars_good : ∀ (cs : List Char) (s : RandStream),
    cs.all goodChar = true → ((subChars cs s).1).all goodChar = true := by
  intro cs
  induction cs with
  | nil => intro s _; rfl
  | cons c rest ih =>
    intro s hall
    simp only [List.all_cons, Bool.and_eq_true] at hall
    cases hfind : letter_subs.find? (fun kv => kv.1 == c) with
    | none =>
      simp only [subChars, hfind, List.all_cons, Bool.and_eq_true]
      exact ⟨hall.1, ih _ hall.2⟩
    | some kv =>
      simp only [subChars, hfind, List.all_cons, Bool.and_eq_true]
      refine ⟨?_, ih _ hall.2⟩
      by_cases hb : (pick [true, false, false] true s).1
      · simp only [hb, if_true]
        exact all_of_mem letter_subs_good (List.mem_of_find?_eq_some hfind)
      · simp only [hb, Bool.false_eq_true, if_false]
        exact hall.1

theorem strGood_pyLower_OK {w : String} (h : strGood w = true) :
    strOK (pyLower w) = true := by
  rw [strGood_pyLower h]
  exact strGood_strOK h

theorem strGood_mk {l : List Char} (h : l.all goodChar = true) :
    strGood (String.mk l) = true :=
  h

theorem generate_default {style : String}
    (hne : style ∉ ["adjective_noun", "noun_number", "minimal", "word_mash", "letter_sub"])
    (len : Nat) (s : RandStream) :
    generate_username style len s =
      (String.mk (pronounceChars 0 len s).1, (pronounceChars 0 len s).2) := by
  simp only [List.mem_cons, List.not_mem_nil, or_false, not_or] at hne
  obtain ⟨h1, h2, h3, h4, h5⟩ := hne
  have e1 : (style == "adjective_noun") = false := beq_eq_false_iff_ne.mpr h1
  have e2 : (style == "noun_number") = false := beq_eq_false_iff_ne.mpr h2
  have e3 : (style == "minimal") = false := beq_eq_false_iff_ne.mpr h3
  have e4 : (style == "word_mash") = false := beq_eq_false_iff_ne.mpr h4
  have e5 : (style == "letter_sub") = false := beq_eq_false_iff_ne.mpr h5
  simp [generate_username, e1, e2, e3, e4, e5]

theorem gen_strOK : ∀ (style : String) (len : Nat) (s : RandStream),
    strOK (generate_username style len s).1 = true := by
  intro style len s
  by_cases h1 : style == "adjective_noun"
  · replace h1 : style = "adjective_noun" := by simpa using h1
    subst h1
    simp only [generate_username, apply_ite Prod.fst]
    simp only [show ("adjective_noun" == "adjective_noun") = true from rfl, if_true]
    split
    · exact strGood_pyLower_OK
        (strGood_append
          (strGood_append (pick_strGood adjectives_good adjectives_ne _)
            (pick_strGood symbols_good symbols_ne _))
          (pick_strGood nouns_good nouns_ne _))
    · exact strGood_pyLower_OK
        (strGood_append
          (strGood_append
            (strGood_append (pick_strGood adjectives_good adjectives_ne _)
              (pick_strGood symbols_good symbols_ne _))
            (pick_strGood nouns_good nouns_ne _))
          (pick_strGood numbers_good numbers_ne _))
  by_cases h2 : style == "noun_number"
  · replace h2 : style = "noun_number" := by simpa using h2
    subst h2
    simp only [generate_username, apply_ite Prod.fst]
    simp only [show ("noun_number" == "adjective_noun") = false from rfl,
      show ("noun_number" == "noun_number") = true from rfl,
      Bool.false_eq_true, if_false, if_true]
    split
    · exact strGood_pyLower_OK
        (strGood_append (pick_strGood nouns_good nouns_ne _)
          (pick_strGood numbers_good numbers_ne _))
    · exact strGood_pyLower_OK (pick_strGood nouns_good nouns_ne _)
  by_cases h3 : style == "minimal"
  · replace h3 : style = "minimal" := by simpa using h3
    subst h3
    simp only [generate_username, apply_ite Prod.fst]
    simp only [show ("minimal" == "adjective_noun") = false from rfl,
      show ("minimal" == "noun_number") = false from rfl,
      show ("minimal" == "minimal") = true from rfl,
      Bool.false_eq_true, if_false, if_true]
    split
    · split
      · exact strGood_strOK
          (strGood_append (pick_strGood short_words_good short_words_ne _)
            (pick_strGood numbers_good numbers_ne _))
      · exact strGood_strOK (pick_strGood short_words_good short_words_ne _)
    · exact strGood_strOK (pick_strGood short_words_good short_words_ne _)
  by_cases h4 : style == "word_mash"
  · replace h4 : style = "word_mash" := by simpa using h4
    subst h4
    simp only [generate_username, apply_ite Prod.fst]
    simp only [show ("word_mash" == "adjective_noun") = false from rfl,
      show ("word_mash" == "noun_number") = false from rfl,
      show ("word_mash" == "minimal") = false from rfl,
      show ("word_mash" == "word_mash") = true from rfl,
      Bool.false_eq_true, if_false, if_true]
    split
    · exact strGood_pyLower_OK
        (strGood_append (pick_strGood nouns_take_good nouns_take_ne _)
          (pick_strGood nouns_midd_good nouns_midd_ne _))
    · exact strGood_pyLower_OK
        (strGood_append
          (strGood_append (pick_strGood nouns_take_good nouns_take_ne _)
            (pick_strGood symbols_good symbols_ne _))
          (pick_strGood nouns_midd_good nouns_midd_ne _))
  by_cases h5 : style == "letter_sub"
  · replace h5 : style = "letter_sub" := by simpa using h5
    subst h5
    simp only [generate_username, apply_ite Prod.fst]
    simp only [show ("letter_sub" == "adjective_noun") = false from rfl,
      show ("letter_sub" == "noun_number") = false from rfl,
      show ("letter_sub" == "minimal") = false from rfl,
      show ("letter_sub" == "word_mash") = false from rfl,
      show ("letter_sub" == "letter_sub") = true from rfl,
      Bool.false_eq_true, if_false, if_true]
    exact strGood_pyLower_OK
      (strGood_mk (subChars_good _ _ (pick_strGood nouns_good nouns_ne _)))
  · have hne : style ∉ ["adjective_noun", "noun_number", "minimal", "word_mash", "letter_sub"] := by
      simp only [List.mem_cons, List.not_mem_nil, or_false, not_or]
      exact ⟨by simpa using h1, by simpa using h2, by simpa using h3,
        by simpa using h4, by simpa using h5⟩
    rw [generate_default hne]
    exact all_imp (fun _ => goodChar_allowed) (pronounceChars_all_good len 0 s)

/-- C3 (counterexample): neither invalid input raises.  `check_availability`
with the unknown platform key `"myspace"` returns the ordinary dictionary
`{'available': False, 'error': 'Website not supported'}` (lines 1410-1411 of
the source contain a `return`, not a `raise`), and `generate_username` with
the unrecognised style `"not_a_style"` falls through to the default
pronounceable branch and returns a username. -/
theorem c3_counterexample :
    check_availability "bob" "myspace" [] =
      ({ available := PyAvail.no, errMsg := some "Website not supported" }, []) ∧
    (generate_username "not_a_style" 8 [0, 0, 0, 0, 0, 0, 0, 0]).1 = "babababa" :=
  ⟨rfl, rfl⟩

/-- C3 (amended): invalid inputs do not raise; they produce ordinary values.
`check_availability` with a platform key absent from the registry returns
`{'available': False, 'error': 'Website not supported'}` with zero network
calls, and `generate_username` with a style name outside the documented
style set falls through to the default pronounceable branch and returns a
username of the requested length. -/
theorem c3_amended :
    (∀ (u w : String) (t : Transport), lookupSite w = none →
      check_availability u w t =
        ({ available := PyAvail.no, errMsg := some "Website not supported" }, [])) ∧
    (∀ (style : String) (len : Nat) (s : RandStream),
      style ∉ ["adjective_noun", "noun_number", "minimal", "word_mash", "letter_sub"] →
      ((generate_username style len s).1).length = len) := by
  constructor
  · intro u w t h
    simp [check_availability, h]
  · intro style len s hne
    rw [generate_default hne]
    show ((pronounceChars 0 len s).1).length = len
    exact pronounceChars_length len 0 s

/-- C3 (witness): the amended statement applied at the concrete unknown
platform key `"myspace"` and the concrete unknown style `"bogus"`. -/
theorem c3_witness :
    check_availability "alice" "myspace" [] =
      ({ available := PyAvail.no, errMsg := some "Website not supported" }, []) ∧
    ((generate_username "bogus" 8 [1, 2, 3]).1).length = 8 :=
  ⟨c3_amended.1 "alice" "myspace" [] rfl,
   c3_amended.2 "bogus" 8 [1, 2, 3] (by decide)⟩

/-- C5 (counterexample): of the three equally likely outcomes of the
`random.choice([True, False, False])` draw (index 0, 1 or 2 with the
remaining draws fixed), the digit-appending branch is taken on TWO — not
one — of them: outcome 0 yields `cooldev`, outcomes 1 and 2 yield
`cooldev1`. -/
theorem c5_counterexample :
    (generate_username "adjective_noun" 8 [0, 0, 0, 0]).1 = "cooldev" ∧
    (generate_username "adjective_noun" 8 [1, 0, 0, 0, 0]).1 = "cooldev1" ∧
    (generate_username "adjective_noun" 8 [2, 0, 0, 0, 0]).1 = "cooldev1" :=
  ⟨rfl, rfl, rfl⟩

/-- C5 (amended): for the ADJECTIVE_NOUN style the output is an adjective,
a separator from the symbol set, and a noun, all lower-cased, with one
digit appended on TWO of the three equally likely first-draw branch
outcomes (probability 2/3, not 1/3): the clean no-digit form is produced
exactly when the first draw hits index 0 of `[True, False, False]`. -/
theorem c5_amended : ∀ s : RandStream,
    ∃ a y n, a ∈ adjectives ∧ y ∈ symbols ∧ n ∈ nouns ∧
      (if List.headD s 0 % 3 = 0 then
        (generate_username "adjective_noun" 8 s).1 = a ++ y ++ n
       else
        ∃ d, d ∈ numbers ∧
          (generate_username "adjective_noun" 8 s).1 = a ++ y ++ n ++ d) := by
  intro s
  have hgen : generate_username "adjective_noun" 8 s =
      (if (pick [true, false, false] true s).1 then
        (pyLower ((pick adjectives "" (List.tail s)).1 ++
          (pick symbols "" (List.tail (List.tail (List.tail s)))).1 ++
          (pick nouns "" (List.tail (List.tail s))).1),
         List.tail (List.tail (List.tail (List.tail s))))
       else
        (pyLower ((pick adjectives "" (List.tail s)).1 ++
          (pick symbols "" (List.tail (List.tail (List.tail s)))).1 ++
          (pick nouns "" (List.tail (List.tail s))).1 ++
          (pick numbers "" (List.tail (List.tail (List.tail (List.tail s))))).1),
         List.tail (List.tail (List.tail (List.tail (List.tail s)))))) := rfl
  have hA : strGood (pick adjectives "" (List.tail s)).1 = true :=
    pick_strGood adjectives_good adjectives_ne _
  have hY : strGood (pick symbols "" (List.tail (List.tail (List.tail s)))).1 = true :=
    pick_strGood symbols_good symbols_ne _
  have hN : strGood (pick nouns "" (List.tail (List.tail s))).1 = true :=
    pick_strGood nouns_good nouns_ne _
  refine ⟨(pick adjectives "" (List.tail s)).1,
    (pick symbols "" (List.tail (List.tail (List.tail s)))).1,
    (pick nouns "" (List.tail (List.tail s))).1,
    pick_mem _ _ _ adjectives_ne, pick_mem _ _ _ symbols_ne,
    pick_mem _ _ _ nouns_ne, ?_⟩
  by_cases h3 : List.headD s 0 % 3 = 0
  · rw [if_pos h3]
    have hb : (pick [true, false, false] true s).1 = true := by
      show [true, false, false].getD (List.headD s 0 % 3) true = true
      rw [h3]
      decide
    rw [hgen, if_pos hb]
    exact strGood_pyLower (strGood_append (strGood_append hA hY) hN)
  · rw [if_neg h3]
    have hb : (pick [true, false, false] true s).1 = false := by
      have hcase : List.headD s 0 % 3 = 1 ∨ List.headD s 0 % 3 = 2 := by omega
      show [true, false, false].getD (List.headD s 0 % 3) true = false
      rcases hcase with h | h <;> rw [h] <;> decide
    refine ⟨(pick numbers "" (List.tail (List.tail (List.tail (List.tail s))))).1,
      pick_mem _ _ _ numbers_ne, ?_⟩
    rw [hgen, if_neg (by simp [hb])]
    exact strGood_pyLower
      (strGood_append (strGood_append (strGood_append hA hY) hN)
        (pick_strGood numbers_good numbers_ne _))

/-- C9: for every style (recognised or not) and every outcome of the
injected random source, every character of `generate_username`'s output
lies in `[a-z0-9_-]`; for the default pronounceable style the output length
equals the requested length with a consonant at every even index and a
vowel at every odd index; and for the NOUN_NUMBER style a digit is
appended exactly when the chosen noun is shorter than 4 characters, the
noun being returned unchanged otherwise. -/
theorem c9_generation_rules :
    (∀ (style : String) (len : Nat) (s : RandStream),
      strOK (generate_username style len s).1 = true) ∧
    (∀ (len : Nat) (s : RandStream),
      ((generate_username "random" len s).1).length = len ∧
      ∀ j : Nat, j < len →
        ((generate_username "random" len s).1).data.getD j 'b' ∈
          (if j % 2 = 0 then consonants else vowels)) ∧
    (∀ s : RandStream,
      (4 ≤ ((pick nouns "" s).1).length →
        (generate_username "noun_number" 8 s).1 = (pick nouns "" s).1) ∧
      (((pick nouns "" s).1).length < 4 →
        ∃ d, d ∈ numbers ∧
          (generate_username "noun_number" 8 s).1 = (pick nouns "" s).1 ++ d)) := by
  refine ⟨gen_strOK, ?_, ?_⟩
  · intro len s
    have hdef : generate_username "random" len s =
        (String.mk (pronounceChars 0 len s).1, (pronounceChars 0 len s).2) :=
      generate_default (by decide) len s
    constructor
    · rw [hdef]
      show ((pronounceChars 0 len s).1).length = len
      exact pronounceChars_length len 0 s
    · intro j hj
      rw [hdef]
      show ((pronounceChars 0 len s).1).getD j 'b' ∈ _
      have := pronounceChars_getD len 0 s j hj
      simpa using this
  · intro s
    have hgen : generate_username "noun_number" 8 s =
        (if ((pick nouns "" s).1).length < 4 then
          (pyLower ((pick nouns "" s).1 ++ (pick numbers "" (List.tail s)).1),
           List.tail (List.tail s))
         else
          (pyLower (pick nouns "" s).1, List.tail s)) := rfl
    have hN : strGood (pick nouns "" s).1 = true :=
      pick_strGood nouns_good nouns_ne _
    constructor
    · intro hlen
      rw [hgen, if_neg (by omega)]
      exact strGood_pyLower hN
    · intro hlen
      refine ⟨(pick numbers "" (List.tail s)).1, pick_mem _ _ _ numbers_ne, ?_⟩
      rw [hgen, if_pos hlen]
      exact strGood_pyLower
        (strGood_append hN (pick_strGood numbers_good numbers_ne _))

/-- C9 (witness): the generation rules applied at concrete inputs — the
LEETSPEAK output `d474` over the all-substitute stream, the length-6
pronounceable output `bababa`, its index pattern at position 4, the
unchanged four-letter noun `code`, and the digit-extended short noun
`dev1`. -/
theorem c9_generation_rules_witness :
    strOK (generate_username "letter_sub" 8 [13, 0, 0, 0, 0]).1 = true ∧
    ((generate_username "random" 6 [0, 0, 0, 0, 0, 0]).1).length = 6 ∧
    ((generate_username "random" 6 [0, 0, 0, 0, 0, 0]).1).data.getD 4 'b' ∈
      (if 4 % 2 = 0 then consonants else vowels) ∧
    (generate_username "noun_number" 8 [10]).1 = (pick nouns "" [10]).1 ∧
    (∃ d, d ∈ numbers ∧
      (generate_username "noun_number" 8 [0, 0]).1 = (pick nouns "" [0, 0]).1 ++ d) :=
  ⟨c9_generation_rules.1 "letter_sub" 8 [13, 0, 0, 0, 0],
   (c9_generation_rules.2.1 6 [0, 0, 0, 0, 0, 0]).1,
   (c9_generation_rules.2.1 6 [0, 0, 0, 0, 0, 0]).2 4 (by decide),
   (c9_generation_rules.2.2 [10]).1 (by decide),
   (c9_generation_rules.2.2 [0, 0]).2 (by decide)⟩

theorem check_github_ok (u : String) (resp : Response) (rest : Transport) :
    check_availability u "github" (Except.ok resp :: rest) =
      (if resp.status == 404 then
        ({ available := PyAvail.yes, statusCode := some (SCode.num 404) },
         [⟨formatUrl "https://github.com/{username}" u, false⟩])
       else if resp.status == 200 then
        ({ available := PyAvail.no, statusCode := some (SCode.num 200) },
         [⟨formatUrl "https://github.com/{username}" u, false⟩])
       else
        ({ available := PyAvail.unknown, statusCode := some (SCode.num resp.status) },
         [⟨formatUrl "https://github.com/{username}" u, false⟩])) := rfl

theorem check_steam_ok (u : String) (resp : Response) (rest : Transport) :
    check_availability u "steam" (Except.ok resp :: rest) =
      (if resp.status == 404 then
        ({ available := PyAvail.yes, statusCode := some (SCode.num 404) },
         [⟨formatUrl "https://steamcommunity.com/id/{username}" u, false⟩])
       else if resp.status == 200 then
        ({ available := PyAvail.no, statusCode := some (SCode.num 200) },
         [⟨formatUrl "https://steamcommunity.com/id/{username}" u, false⟩])
       else
        ({ available := PyAvail.unknown, statusCode := some (SCode.num resp.status) },
         [⟨formatUrl "https://steamcommunity.com/id/{username}" u, false⟩])) := rfl

theorem github_avail (u : String) (resp : Response) (rest : Transport) :
    (check_availability u "github" (Except.ok resp :: rest)).1.available =
      genericStatusVerdict resp.status := by
  rw [check_github_ok]
  by_cases h1 : resp.status = 404
  · simp [h1, genericStatusVerdict]
  · by_cases h2 : resp.status = 200 <;>
      simp [genericStatusVerdict, h1, h2, beq_eq_false_iff_ne.mpr h1]

theorem steam_avail (u : String) (resp : Response) (rest : Transport) :
    (check_availability u "steam" (Except.ok resp :: rest)).1.available =
      genericStatusVerdict resp.status := by
  rw [check_steam_ok]
  by_cases h1 : resp.status = 404
  · simp [h1, genericStatusVerdict]
  · by_cases h2 : resp.status = 200 <;>
      simp [genericStatusVerdict, h1, h2, beq_eq_false_iff_ne.mpr h1]

/-- C1: for every username and every transport, a platform whose registry
entry has `check_available = False` makes `check_availability` return the
Unknown verdict with the manual-checking note and an empty network-call
trace — it can return nothing else for such a platform. -/
theorem c1_manual_only : ∀ (u w : String) (info : SiteInfo) (t : Transport),
    lookupSite w = some info → info.check_available = false →
    check_availability u w t =
      ({ available := PyAvail.unknown,
         note := some "Availability checking not supported" }, []) := by
  intro u w info t hlook hman
  simp [check_availability, hlook, hman]

/-- C1 (witness): the ManualOnly platform `tiktok` with a nonempty canned
transport still yields Unknown with zero calls. -/
theorem c1_manual_only_witness :
    check_availability "bob" "tiktok" [Except.ok { status := 404 }] =
      ({ available := PyAvail.unknown,
         note := some "Availability checking not supported" }, []) :=
  c1_manual_only "bob" "tiktok"
    ⟨"TikTok", "https://tiktok.com/@{username}", false,
      "Short video platform (blocked by anti-bot measures)"⟩
    [Except.ok { status := 404 }] rfl rfl

/-- C2: for the platforms of the generic status branch (github, steam) the
verdict of `check_availability` is a pure function of the status code of
the single GET it issues with redirects not followed: 404 yields
Available, 200 yields Taken, anything else Unknown. -/
theorem c2_generic_status : ∀ (u : String) (resp : Response) (rest : Transport),
    ((check_availability u "github" (Except.ok resp :: rest)).1.available =
        genericStatusVerdict resp.status ∧
      (check_availability u "github" (Except.ok resp :: rest)).2 =
        [⟨formatUrl "https://github.com/{username}" u, false⟩]) ∧
    ((check_availability u "steam" (Except.ok resp :: rest)).1.available =
        genericStatusVerdict resp.status ∧
      (check_availability u "steam" (Except.ok resp :: rest)).2 =
        [⟨formatUrl "https://steamcommunity.com/id/{username}" u, false⟩]) := by
  intro u resp rest
  refine ⟨⟨github_avail u resp rest, ?_⟩, ⟨steam_avail u resp rest, ?_⟩⟩
  · rw [check_github_ok]
    split
    · rfl
    · split <;> rfl
  · rw [check_steam_ok]
    split
    · rfl
    · split <;> rfl

/-- C8: a transport failure during a probe is caught and turned into an
Error verdict carrying the failure message, for every username and every
checkable platform (github, twitter, instagram, steam) — on the probe's
first GET, and likewise when the failure strikes the Twitter chain's
second or third sub-probe; no transport exception escapes to the caller
(the embedding is total: every transport outcome maps to a result). -/
theorem c8_transport_error_recovered :
    (∀ (u w m : String) (rest : Transport),
      w ∈ ["github", "twitter", "instagram", "steam"] →
      (check_availability u w (Except.error m :: rest)).1.available = PyAvail.error ∧
      (check_availability u w (Except.error m :: rest)).1.errMsg = some m) ∧
    (∀ (u m : String) (r1 : Response) (rest : Transport),
      r1.status ≠ 200 → r1.status ≠ 404 →
      (twitter_bypass u (Except.ok r1 :: Except.error m :: rest)).1.available =
          PyAvail.error ∧
      (twitter_bypass u (Except.ok r1 :: Except.error m :: rest)).1.errMsg = some m) ∧
    (∀ (u m : String) (r1 r2 : Response) (rest : Transport),
      r1.status ≠ 200 → r1.status ≠ 404 → r2.status ≠ 200 → r2.status ≠ 404 →
      (twitter_bypass u
          (Except.ok r1 :: Except.ok r2 :: Except.error m :: rest)).1.available =
        PyAvail.error ∧
      (twitter_bypass u
          (Except.ok r1 :: Except.ok r2 :: Except.error m :: rest)).1.errMsg = some m) := by
  refine ⟨?_, ?_, ?_⟩
  · intro u w m rest hw
    simp only [List.mem_cons, List.not_mem_nil, or_false] at hw
    rcases hw with rfl | rfl | rfl | rfl <;> exact ⟨rfl, rfl⟩
  · intro u m r1 rest h200 h404
    have e200 : (r1.status == 200) = false := beq_eq_false_iff_ne.mpr h200
    have e404 : (r1.status == 404) = false := beq_eq_false_iff_ne.mpr h404
    constructor <;>
      simp [twitter_bypass, http_get, e200, e404]
  · intro u m r1 r2 rest h200 h404 g200 g404
    have e200 : (r1.status == 200) = false := beq_eq_false_iff_ne.mpr h200
    have e404 : (r1.status == 404) = false := beq_eq_false_iff_ne.mpr h404
    have f200 : (r2.status == 200) = false := beq_eq_false_iff_ne.mpr g200
    have f404 : (r2.status == 404) = false := beq_eq_false_iff_ne.mpr g404
    constructor <;>
      simp [twitter_bypass, http_get, e200, e404, f200, f404]

/-- C8 (witness): concrete recoveries — a timeout on GitHub's single GET, a
refused connection at Twitter's second sub-probe, a reset at its third. -/
theorem c8_transport_error_recovered_witness :
    (check_availability "bob" "github" [Except.error "timeout"]).1.available =
        PyAvail.error ∧
    (twitter_bypass "bob"
        [Except.ok { status := 500 }, Except.error "refused"]).1.errMsg =
      some "refused" ∧
    (twitter_bypass "bob"
        [Except.ok { status := 500 }, Except.ok { status := 500 },
         Except.error "reset"]).1.available = PyAvail.error :=
  ⟨(c8_transport_error_recovered.1 "bob" "github" "timeout" [] (by decide)).1,
   (c8_transport_error_recovered.2.1 "bob" "refused" { status := 500 } []
      (by decide) (by decide)).2,
   (c8_transport_error_recovered.2.2 "bob" "reset" { status := 500 } { status := 500 } []
      (by decide) (by decide) (by decide) (by decide)).1⟩

/-- C6 (counterexample): a Twitter run whose search sub-probe falls through
(status 500) and whose embed sub-probe answers 200 with an unparseable JSON
body stops after TWO attempts with an Unknown verdict tagged `"embed"` —
the RSS sub-probe never runs and the verdict is not tagged `"multi"`,
although every executed sub-probe was inconclusive. -/
theorem c6_counterexample :
    twitter_bypass "bob"
        [Except.ok { status := 500 }, Except.ok { status := 200, body := "no json here" }] =
      ({ available := PyAvail.unknown, statusCode := some (SCode.num 200),
         method := some "embed" },
       [⟨"https://twitter.com/search?q=from%3Abob&src=typed_query&f=user", false⟩,
        ⟨"https://publish.twitter.com/oembed?url=https://twitter.com/bob", true⟩]) ∧
    (twitter_bypass "bob"
        [Except.ok { status := 500 },
         Except.ok { status := 200, body := "no json here" }]).1.method ≠ some "multi" :=
  ⟨rfl, by decide⟩

/-- C6 (amended): the Twitter fallback runs its sub-probes in the fixed
order search, embed, RSS, and stops at the first sub-probe that yields a
verdict at all: a sub-probe falls through to the next exactly on a status
other than 200/404, an embed 200-response with unparseable JSON ends the
chain early with Unknown tagged `"embed"`, and only when all three fall
through is the verdict Unknown tagged `"multi"`; a run whose first
sub-probe falls through and whose second is decisive ends after exactly
two attempts with the second attempt's verdict. -/
theorem c6_amended :
    (∀ (u : String) (r1 r2 : Response) (rest : Transport),
      r1.status ≠ 200 → r1.status ≠ 404 → r2.status = 404 →
      twitter_bypass u (Except.ok r1 :: Except.ok r2 :: rest) =
        ({ available := PyAvail.yes, statusCode := some (SCode.num 404),
           method := some "embed" },
         [⟨"https://twitter.com/search?q=from%3A" ++ u ++ "&src=typed_query&f=user", false⟩,
          ⟨"https://publish.twitter.com/oembed?url=https://twitter.com/" ++ u, true⟩])) ∧
    (∀ (u : String) (r1 r2 : Response) (rest : Transport),
      r1.status ≠ 200 → r1.status ≠ 404 → r2.status = 200 → r2.json = none →
      twitter_bypass u (Except.ok r1 :: Except.ok r2 :: rest) =
        ({ available := PyAvail.unknown, statusCode := some (SCode.num 200),
           method := some "embed" },
         [⟨"https://twitter.com/search?q=from%3A" ++ u ++ "&src=typed_query&f=user", false⟩,
          ⟨"https://publish.twitter.com/oembed?url=https://twitter.com/" ++ u, true⟩])) ∧
    (∀ (u : String) (r1 r2 r3 : Response) (rest : Transport),
      r1.status ≠ 200 → r1.status ≠ 404 → r2.status ≠ 200 → r2.status ≠ 404 →
      r3.status ≠ 200 → r3.status ≠ 404 →
      twitter_bypass u (Except.ok r1 :: Except.ok r2 :: Except.ok r3 :: rest) =
        ({ available := PyAvail.unknown,
           statusCode := some (SCode.str "multiple_attempts"), method := some "multi" },
         [⟨"https://twitter.com/search?q=from%3A" ++ u ++ "&src=typed_query&f=user", false⟩,
          ⟨"https://publish.twitter.com/oembed?url=https://twitter.com/" ++ u, true⟩,
          ⟨"https://twitter.com/" ++ u ++ "/rss", true⟩])) := by
  refine ⟨?_, ?_, ?_⟩
  · intro u r1 r2 rest h200 h404 g404
    have e200 : (r1.status == 200) = false := beq_eq_false_iff_ne.mpr h200
    have e404 : (r1.status == 404) = false := beq_eq_false_iff_ne.mpr h404
    have f200 : (r2.status == 200) = false := beq_eq_false_iff_ne.mpr (by omega)
    have f404 : (r2.status == 404) = true := by simp [g404]
    simp [twitter_bypass, http_get, e200, e404, f200, f404]
  · intro u r1 r2 rest h200 h404 g200 gjson
    have e200 : (r1.status == 200) = false := beq_eq_false_iff_ne.mpr h200
    have e404 : (r1.status == 404) = false := beq_eq_false_iff_ne.mpr h404
    have f200 : (r2.status == 200) = true := by simp [g200]
    simp [twitter_bypass, http_get, e200, e404, f200, gjson]
  · intro u r1 r2 r3 rest h200 h404 g200 g404 k200 k404
    have e200 : (r1.status == 200) = false := beq_eq_false_iff_ne.mpr h200
    have e404 : (r1.status == 404) = false := beq_eq_false_iff_ne.mpr h404
    have f200 : (r2.status == 200) = false := beq_eq_false_iff_ne.mpr g200
    have f404 : (r2.status == 404) = false := beq_eq_false_iff_ne.mpr g404
    have j200 : (r3.status == 200) = false := beq_eq_false_iff_ne.mpr k200
    have j404 : (r3.status == 404) = false := beq_eq_false_iff_ne.mpr k404
    simp [twitter_bypass, http_get, e200, e404, f200, f404, j200, j404]

/-- C6 (witness): the amended statement at concrete transports — a decisive
404 embed answer after a 500 search answer (two attempts, the second's
verdict), the early-Unknown embed stop, and the all-fall-through run tagged
`"multi"` after three attempts. -/
theorem c6_amended_witness :
    twitter_bypass "bob" [Except.ok { status := 500 }, Except.ok { status := 404 }] =
      ({ available := PyAvail.yes, statusCode := some (SCode.num 404),
         method := some "embed" },
       [⟨"https://twitter.com/search?q=from%3Abob&src=typed_query&f=user", false⟩,
        ⟨"https://publish.twitter.com/oembed?url=https://twitter.com/bob", true⟩]) ∧
    twitter_bypass "bob"
        [Except.ok { status := 500 }, Except.ok { status := 200, body := "xx" }] =
      ({ available := PyAvail.unknown, statusCode := some (SCode.num 200),
         method := some "embed" },
       [⟨"https://twitter.com/search?q=from%3Abob&src=typed_query&f=user", false⟩,
        ⟨"https://publish.twitter.com/oembed?url=https://twitter.com/bob", true⟩]) ∧
    twitter_bypass "bob"
        [Except.ok { status := 500 }, Except.ok { status := 403 },
         Except.ok { status := 301 }] =
      ({ available := PyAvail.unknown,
         statusCode := some (SCode.str "multiple_attempts"), method := some "multi" },
       [⟨"https://twitter.com/search?q=from%3Abob&src=typed_query&f=user", false⟩,
        ⟨"https://publish.twitter.com/oembed?url=https://twitter.com/bob", true⟩,
        ⟨"https://twitter.com/bob/rss", true⟩]) :=
  ⟨c6_amended.1 "bob" { status := 500 } { status := 404 } []
      (by decide) (by decide) (by decide),
   c6_amended.2.1 "bob" { status := 500 } { status := 200, body := "xx" } []
      (by decide) (by decide) (by decide) rfl,
   c6_amended.2.2 "bob" { status := 500 } { status := 403 } { status := 301 } []
      (by decide) (by decide) (by decide) (by decide) (by decide) (by decide)⟩

theorem resolveLoop_map_fst (u : String) (tm : String → Transport) :
    ∀ l : List (String × SiteInfo),
      (resolveLoop u tm l).map Prod.fst = l.map Prod.fst := by
  intro l
  induction l with
  | nil => rfl
  | cons kv rest ih =>
    cases kv with
    | mk k info => simp [resolveLoop, ih]

theorem lookupRes_resolveLoop (u : String) (tm : String → Transport) (q : String) :
    ∀ l : List (String × SiteInfo),
      lookupRes (resolveLoop u tm l) q =
        (l.find? (fun kv => kv.1 == q)).map
          (fun kv => (check_availability u kv.1 (tm kv.1)).1) := by
  intro l
  induction l with
  | nil => rfl
  | cons kv rest ih =>
    cases kv with
    | mk k info =>
      by_cases hk : (k == q) = true
      · simp [resolveLoop, lookupRes, List.find?_cons_of_pos, hk]
      · have hk' : (k == q) = false := by simpa using hk
        simp only [resolveLoop, lookupRes, List.find?] at ih ⊢
        simp [hk', ih]

theorem lookupRes_platform (u : String) (tm : String → Transport) (p : String)
    (info : SiteInfo)
    (hfind : websites.find? (fun kv => kv.1 == p) = some (p, info)) :
    lookupRes (check_username_across_platforms u tm) p =
      some (check_availability u p (tm p)).1 := by
  rw [check_username_across_platforms, lookupRes_resolveLoop, hfind]
  rfl

/-- C7: `check_username_across_platforms` returns exactly one entry per
registry key, in registry order; a transport failure on one checkable
platform turns that platform's entry into an Error verdict; and every
platform's entry depends only on that platform's own transport, so a
failure on one platform leaves every other platform's entry unchanged. -/
theorem c7_aggregate :
    (∀ (u : String) (tm : String → Transport),
      (check_username_across_platforms u tm).map Prod.fst = websites.map Prod.fst) ∧
    (∀ (u m : String) (rest : Transport) (tm : String → Transport) (p : String),
      p ∈ ["github", "twitter", "instagram", "steam"] →
      tm p = Except.error m :: rest →
      Option.map CheckResult.available
        (lookupRes (check_username_across_platforms u tm) p) = some PyAvail.error) ∧
    (∀ (u : String) (tm tm' : String → Transport) (p : String),
      (∀ q, q ≠ p → tm q = tm' q) →
      ∀ q, q ≠ p →
        lookupRes (check_username_across_platforms u tm) q =
          lookupRes (check_username_across_platforms u tm') q) := by
  refine ⟨?_, ?_, ?_⟩
  · intro u tm
    exact resolveLoop_map_fst u tm websites
  · intro u m rest tm p hp htm
    simp only [List.mem_cons, List.not_mem_nil, or_false] at hp
    rcases hp with rfl | rfl | rfl | rfl
    · rw [lookupRes_platform u tm "github"
        ⟨"GitHub", "https://github.com/{username}", true, "Code repository hosting"⟩ rfl,
        htm]
      rfl
    · rw [lookupRes_platform u tm "twitter"
        ⟨"Twitter/X", "https://twitter.com/{username}", true,
          "Social media platform (advanced bypass)"⟩ rfl, htm]
      rfl
    · rw [lookupRes_platform u tm "instagram"
        ⟨"Instagram", "https://instagram.com/{username}", true,
          "Photo sharing platform (advanced bypass)"⟩ rfl, htm]
      rfl
    · rw [lookupRes_platform u tm "steam"
        ⟨"Steam", "https://steamcommunity.com/id/{username}", true,
          "Gaming platform"⟩ rfl, htm]
      rfl
  · intro u tm tm' p hagree q hq
    rw [check_username_across_platforms, check_username_across_platforms,
      lookupRes_resolveLoop, lookupRes_resolveLoop]
    cases hfind : websites.find? (fun kv => kv.1 == q) with
    | none => rfl
    | some kv =>
      have hkq : kv.1 = q := by
        have := List.find?_some hfind
        simpa using this
      simp only [Option.map_some']
      rw [hkq, hagree q hq]

/-- C7 (witness): over the 12-platform registry with GitHub's transport
failing, GitHub's entry is Error while, between two transport maps agreeing
away from GitHub, Steam's entry is unchanged; the key list is the registry
key list. -/
theorem c7_aggregate_witness :
    (check_username_across_platforms "bob"
        (fun _ => [Except.ok { status := 404 }])).map Prod.fst =
      websites.map Prod.fst ∧
    Option.map CheckResult.available
      (lookupRes (check_username_across_platforms "bob"
        (fun p => if p == "github" then [Except.error "down"]
                  else [Except.ok { status := 404 }])) "github") =
      some PyAvail.error ∧
    lookupRes (check_username_across_platforms "bob"
        (fun p => if p == "github" then [Except.error "down"]
                  else [Except.ok { status := 404 }])) "steam" =
      lookupRes (check_username_across_platforms "bob"
        (fun _ => [Except.ok { status := 404 }])) "steam" :=
  ⟨c7_aggregate.1 "bob" (fun _ => [Except.ok { status := 404 }]),
   c7_aggregate.2.1 "bob" "down" []
     (fun p => if p == "github" then [Except.error "down"]
               else [Except.ok { status := 404 }])
     "github" (by decide) rfl,
   c7_aggregate.2.2 "bob"
     (fun p => if p == "github" then [Except.error "down"]
               else [Except.ok { status := 404 }])
     (fun _ => [Except.ok { status := 404 }]) "github"
     (fun q hq => by simp [beq_eq_false_iff_ne.mpr hq]) "steam" (by decide)⟩

theorem countAvail_single_yes (u : String) (netA : String → Transport)
    (h : (check_availability u "github" (netA "github")).1.available = PyAvail.yes) :
    countAvail u key_platforms netA = 1 := by
  simp [countAvail, key_platforms, h]

theorem countAvail_cons_no (u p : String) (rest : List String)
    (netA : String → Transport)
    (h : (check_availability u p (netA p)).1.available = PyAvail.no) :
    countAvail u (p :: rest) netA = 0 := by
  simp [countAvail, h]

theorem findLoop_count_le (style : String) (net : Nat → String → Transport) :
    ∀ (fuel attempt : Nat) (s : RandStream),
      (findLoop style net attempt fuel s).2 ≤ fuel := by
  intro fuel
  induction fuel with
  | zero => intro attempt s; exact Nat.le_refl 0
  | succ n ih =>
    intro attempt s
    simp only [findLoop]
    split
    · simp
    · simpa using Nat.succ_le_succ (ih (attempt + 1) (generate_username style 8 s).2)

theorem findLoop_none (style : String) (net : Nat → String → Transport)
    (h : ∀ (i : Nat) (u : String),
      (check_availability u "github" (net i "github")).1.available = PyAvail.no) :
    ∀ (fuel attempt : Nat) (s : RandStream),
      (findLoop style net attempt fuel s).1 = none := by
  intro fuel
  induction fuel with
  | zero => intro attempt s; rfl
  | succ n ih =>
    intro attempt s
    have hc : countAvail (generate_username style 8 s).1 key_platforms (net attempt) = 0 :=
      countAvail_cons_no _ _ _ _ (h attempt _)
    have hcond : (countAvail (generate_username style 8 s).1 key_platforms (net attempt) ==
        key_platforms.length) = false := by
      rw [hc]
      rfl
    simp only [findLoop, hcond, Bool.false_eq_true, if_false]
    exact ih (attempt + 1) (generate_username style 8 s).2

theorem findLoop_first_success (style : String) (net : Nat → String → Transport)
    (s : RandStream) (m : Nat)
    (h : (check_availability (generate_username style 8 s).1 "github"
      (net 0 "github")).1.available = PyAvail.yes) :
    find_available_username style (m + 1) s net =
      (some (generate_username style 8 s).1, 1) := by
  have hc := countAvail_single_yes (generate_username style 8 s).1 (net 0) h
  have hcond : (countAvail (generate_username style 8 s).1 key_platforms (net 0) ==
      key_platforms.length) = true := by
    rw [hc]
    rfl
  simp only [find_available_username, findLoop, hcond, if_true]

/-- C4: `find_available_username` performs at most `max_attempts`
generate-and-check iterations; the platform loop abandons a candidate at
the first Taken verdict without consulting the remaining platforms; the
first candidate for which every checked platform reports Available is
returned immediately; and when GitHub (the first and only checked
platform) classifies every candidate Taken, the search exhausts its
attempts and returns the not-found signal `none`. -/
theorem c4_search_loop :
    (∀ (u p : String) (rest : List String) (netA : String → Transport),
      (check_availability u p (netA p)).1.available = PyAvail.no →
      countAvail u (p :: rest) netA = 0) ∧
    (∀ (style : String) (net : Nat → String → Transport) (m : Nat) (s : RandStream),
      (find_available_username style m s net).2 ≤ m) ∧
    (∀ (style : String) (net : Nat → String → Transport) (m : Nat) (s : RandStream),
      (check_availability (generate_username style 8 s).1 "github"
          (net 0 "github")).1.available = PyAvail.yes →
      find_available_username style (m + 1) s net =
        (some (generate_username style 8 s).1, 1)) ∧
    (∀ (style : String) (net : Nat → String → Transport) (m : Nat) (s : RandStream),
      (∀ (i : Nat) (u : String),
        (check_availability u "github" (net i "github")).1.available = PyAvail.no) →
      (find_available_username style m s net).1 = none) := by
  refine ⟨countAvail_cons_no, ?_, ?_, ?_⟩
  · intro style net m s
    exact findLoop_count_le style net m 0 s
  · intro style net m s h
    exact findLoop_first_success style net s m h
  · intro style net m s h
    exact findLoop_none style net h m 0 s

/-- C4 (witness): with a transport always answering 200 the loop breaks on
the Taken verdict, attempts stay within the budget, and the search returns
`none`; with a transport always answering 404 the first candidate is
returned after one iteration. -/
theorem c4_search_loop_witness :
    countAvail "bob" ("github" :: ["steam"])
      (fun _ => [Except.ok { status := 200 }]) = 0 ∧
    (find_available_username "random" 5 [0]
      (fun _ _ => [Except.ok { status := 200 }])).2 ≤ 5 ∧
    find_available_username "random" 3 [0, 0, 0, 0, 0, 0, 0, 0]
        (fun _ _ => [Except.ok { status := 404 }]) =
      (some (generate_username "random" 8 [0, 0, 0, 0, 0, 0, 0, 0]).1, 1) ∧
    (find_available_username "random" 4 [0]
      (fun _ _ => [Except.ok { status := 200 }])).1 = none :=
  ⟨c4_search_loop.1 "bob" "github" ["steam"]
      (fun _ => [Except.ok { status := 200 }]) rfl,
   c4_search_loop.2.1 "random" (fun _ _ => [Except.ok { status := 200 }]) 5 [0],
   c4_search_loop.2.2.1 "random" (fun _ _ => [Except.ok { status := 404 }]) 2
     [0, 0, 0, 0, 0, 0, 0, 0] rfl,
   c4_search_loop.2.2.2 "random" (fun _ _ => [Except.ok { status := 200 }]) 4 [0]
     (fun _ _ => rfl)⟩

theorem countAvail_net_github (u : String) (netA netA' : String → Transport)
    (h : netA "github" = netA' "github") :
    countAvail u key_platforms netA = countAvail u key_platforms netA' := by
  simp [countAvail, key_platforms, h]

theorem findLoop_net_congr (style : String) (net net' : Nat → String → Transport)
    (h : ∀ i, net i "github" = net' i "github") :
    ∀ (fuel attempt : Nat) (s : RandStream),
      findLoop style net attempt fuel s = findLoop style net' attempt fuel s := by
  intro fuel
  induction fuel with
  | zero => intro attempt s; rfl
  | succ n ih =>
    intro attempt s
    simp only [findLoop]
    rw [countAvail_net_github (generate_username style 8 s).1
      (net attempt) (net' attempt) (h attempt)]
    split
    · rfl
    · rw [ih (attempt + 1) (generate_username style 8 s).2]

/-- C10: the search loop's checked-platform list is the fixed singleton
`['github']`; the whole search result depends only on what the transport
answers for GitHub (no other platform is ever probed by the loop); and
success is declared as soon as GitHub alone reports Available for the
current candidate. -/
theorem c10_github_only :
    key_platforms = ["github"] ∧
    (∀ (style : String) (m : Nat) (s : RandStream)
        (net net' : Nat → String → Transport),
      (∀ i, net i "github" = net' i "github") →
      find_available_username style m s net = find_available_username style m s net') ∧
    (∀ (style : String) (net : Nat → String → Transport) (m : Nat) (s : RandStream),
      (check_availability (generate_username style 8 s).1 "github"
          (net 0 "github")).1.available = PyAvail.yes →
      (find_available_username style (m + 1) s net).1 =
        some (generate_username style 8 s).1) := by
  refine ⟨rfl, ?_, ?_⟩
  · intro style m s net net' h
    exact findLoop_net_congr style net net' h m 0 s
  · intro style net m s h
    rw [findLoop_first_success style net s m h]

/-- C10 (witness): two transport maps that agree on GitHub but answer
differently for every other platform give the same search result, and a
GitHub-only 404 answer makes the first candidate succeed. -/
theorem c10_github_only_witness :
    find_available_username "random" 2 [0, 0, 0, 0, 0, 0, 0, 0]
        (fun _ p => if p == "github" then [Except.ok { status := 404 }] else []) =
      find_available_username "random" 2 [0, 0, 0, 0, 0, 0, 0, 0]
        (fun _ _ => [Except.ok { status := 404 }]) ∧
    (find_available_username "random" 3 [0, 0, 0, 0, 0, 0, 0, 0]
        (fun _ _ => [Except.ok { status := 404 }])).1 =
      some (generate_username "random" 8 [0, 0, 0, 0, 0, 0, 0, 0]).1 :=
  ⟨c10_github_only.2.1 "random" 2 [0, 0, 0, 0, 0, 0, 0, 0]
     (fun _ p => if p == "github" then [Except.ok { status := 404 }] else [])
     (fun _ _ => [Except.ok { status := 404 }]) (fun _ => rfl),
   c10_github_only.2.2 "random" (fun _ _ => [Except.ok { status := 404 }]) 2
     [0, 0, 0, 0, 0, 0, 0, 0] rfl⟩
